import Mathlib

/-!
# Verification of the GCP Artifact Registry dashboard core

Shallow embedding of the pure request/transform logic of the web server
(`server` module) and the companion CLI (`artifact-tool.js`):

* JavaScript truthiness on optional string fields is modelled by `jsTruthy` /
  `jsOr`; template interpolation of a possibly-`undefined` value by `jsUndef`.
* `String.prototype.split('/')` is modelled by `splitSlash` on character lists
  (same semantics: `"".split('/') = [""]`, separators at the ends produce empty
  segments).
* `formatSize` follows the source line by line, including the unreachable
  `bytes === 0` branch that is shadowed by the `!bytes` guard, and the
  unclamped unit-array index (out-of-range indexing renders the literal text
  "undefined", as JavaScript template interpolation does).
  `Math.floor(Math.log bytes / Math.log 1024)` is modelled by the exact
  integer logarithm `ilog1024`; the floating-point evaluation in the source
  agrees with the exact value except within a few ulp of a unit boundary.
* Upstream registry calls are modelled by their outcomes (`Except` /
  `ProbeOutcome` values) passed as inputs to the route bodies, which are
  otherwise translated faithfully.
* Date rendering is not inspected by any property below, so formatted dates
  are modelled abstractly by their epoch-second payloads.
-/

/-- JavaScript truthiness of an optional string field: present and non-empty. -/
def jsTruthy : Option String → Bool
  | none => false
  | some s => !s.isEmpty

/-- JavaScript `x || d` on an optional string (empty string is falsy). -/
def jsOr : Option String → String → String
  | none, d => d
  | some s, d => if s.isEmpty then d else s

/-- Template interpolation of a possibly-`undefined` string value:
`undefined` renders as the literal text "undefined". -/
def jsUndef : Option String → String
  | none => "undefined"
  | some s => s

/-- Model of `s.includes(c)` for a single-character needle. -/
def jsIncludesChar (s : String) (c : Char) : Bool :=
  s.data.contains c

/-- One step of splitting on `'/'`: prepend a character to the first segment,
or open a fresh empty segment at a separator. -/
def consSeg (c : Char) : List (List Char) → List (List Char)
  | [] => [[c]]
  | seg :: segs => if c = '/' then [] :: seg :: segs else (c :: seg) :: segs

/-- Model of `String.prototype.split('/')` on the character list of a string. -/
def splitSlash : List Char → List (List Char)
  | [] => [[]]
  | c :: rest => consSeg c (splitSlash rest)

/-- Model of `s.split('/')` as a list of strings. -/
def splitOnSlash (s : String) : List String :=
  (splitSlash s.data).map (fun cs => String.mk cs)

/-- Model of `nameParts[nameParts.length - 1]`: the final path segment of an identifier
(the split result is never empty, so the default is never consulted). -/
def shortName (s : String) : String :=
  (splitOnSlash s).getLastD ""

/-- Model of `nameParts[3]`: the fourth path segment, `undefined` (here `none`) when the
identifier has fewer than four segments. -/
def locationSeg (s : String) : Option String :=
  (splitOnSlash s)[3]?

/-- Model of `nameParts.slice(-2).join('/')`: the last two path segments joined
(`slice(-2)` on a shorter array returns the whole array). -/
def lastTwoSegments (s : String) : String :=
  let parts := splitOnSlash s
  String.intercalate "/" (parts.drop (parts.length - 2))

/-- The unit table of `formatSize`: `["Bytes", "KB", "MB", "GB", "TB"]`. -/
def sizeUnits : List String := ["Bytes", "KB", "MB", "GB", "TB"]

/-- Fuel-driven integer logarithm; with fuel at least `n` it computes
the exact floor of the base-`base` logarithm of `n`. -/
def ilogAux (base : Nat) : Nat → Nat → Nat
  | 0, _ => 0
  | fuel + 1, n => if n < base then 0 else ilogAux base fuel (n / base) + 1

/-- Exact value of `Math.floor(Math.log n / Math.log 1024)` for positive `n`. -/
def ilog1024 (n : Nat) : Nat := ilogAux 1024 n n

/-- Model of `(num / den).toFixed(2)` for an exactly representable quotient `num / den`:
round half up to two decimal places (ECMA-262 `Number.prototype.toFixed`). -/
def toFixed2 (num den : Nat) : String :=
  let q := (num * 200 + den) / (2 * den)
  let r := q % 100
  toString (q / 100) ++ "." ++ (if r < 10 then "0" ++ toString r else toString r)

/-- The `formatSize` function from the source (identical in the server and the CLI).
The argument is `none` when the JavaScript call receives `NaN` or `undefined`
(e.g. `Number(undefined)` at the CLI call site). Line by line:
`if (!bytes) return "N/A"` — catches absent input and also `bytes === 0`;
`if (bytes === 0) return "0 Bytes"` — unreachable, shadowed by the guard above;
otherwise index the unit table with the unclamped integer logarithm. -/
def formatSize : Option Nat → String
  | none => "N/A"
  | some bytes =>
    if bytes = 0 then "N/A"
    else if bytes = 0 then "0 Bytes"
    else
      let i := ilog1024 bytes
      toFixed2 bytes (1024 ^ i) ++ " " ++ sizeUnits.getD i "undefined"

/-! ## Raw upstream records and the listing formatters

Raw records carry exactly the fields the route bodies read; optional fields
model JavaScript `undefined`. Timestamps are epoch seconds (`timestamp.seconds`
in the source); the formatted-date fields of the display records keep that
abstract payload because no property below inspects the date rendering. -/

/-- A raw repository entity as returned by the registry SDK. -/
structure RawRepo where
  name : String
  format : Option String
  descr : Option String
  createTime : Option Nat
  updateTime : Option Nat
  sizeBytes : Option Nat
deriving Repr, DecidableEq

/-- The display record built by the `/api/repositories` route body. -/
structure RepoRecord where
  id : String
  name : String
  location : Option String
  format : String
  descr : String
  createdAt : Option Nat
  updatedAt : Option Nat
  sizeBytes : Nat
  sizeFormatted : String
deriving Repr, DecidableEq

/-- The per-repository formatter of `/api/repositories`. -/
def formatRepo (r : RawRepo) : RepoRecord :=
  { id := r.name
    name := shortName r.name
    location := locationSeg r.name
    format := jsOr r.format "UNKNOWN"
    descr := jsOr r.descr ""
    createdAt := r.createTime
    updatedAt := r.updateTime
    sizeBytes := r.sizeBytes.getD 0
    sizeFormatted := formatSize (some (r.sizeBytes.getD 0)) }

/-- A raw package entity. -/
structure RawPackage where
  name : String
  displayName : Option String
  createTime : Option Nat
  updateTime : Option Nat
deriving Repr, DecidableEq

/-- The display record built by the packages route body. -/
structure PackageRecord where
  id : String
  name : String
  displayName : String
  createdAt : Option Nat
  updatedAt : Option Nat
deriving Repr, DecidableEq

/-- The per-package formatter of the packages route. -/
def formatPackage (p : RawPackage) : PackageRecord :=
  { id := p.name
    name := shortName p.name
    displayName := jsOr p.displayName (shortName p.name)
    createdAt := p.createTime
    updatedAt := p.updateTime }

/-- A raw version entity (`metadata` is an opaque map, kept abstract). -/
structure RawVersion where
  name : String
  descr : Option String
  createTime : Option Nat
  updateTime : Option Nat
  metadata : Option (List (String × String))
deriving Repr, DecidableEq

/-- The display record built by the versions route body. -/
structure VersionRecord where
  id : String
  name : String
  descr : String
  createdAt : Option Nat
  updatedAt : Option Nat
  metadata : List (String × String)
deriving Repr, DecidableEq

/-- The per-version formatter of the versions route. -/
def formatVersion (v : RawVersion) : VersionRecord :=
  { id := v.name
    name := shortName v.name
    descr := jsOr v.descr ""
    createdAt := v.createTime
    updatedAt := v.updateTime
    metadata := v.metadata.getD [] }

/-- A raw Docker image entity. -/
structure RawImage where
  name : String
  uri : String
  tags : Option (List String)
  imageSizeBytes : Option Nat
  uploadTime : Option Nat
  buildTime : Option Nat
  mediaType : Option String
deriving Repr, DecidableEq

/-- The display record built by the docker-images route body. -/
structure ImageRecord where
  id : String
  name : String
  uri : String
  tags : List String
  sizeBytes : Nat
  sizeFormatted : String
  uploadedAt : Option Nat
  buildTime : Option Nat
  mediaType : String
deriving Repr, DecidableEq

/-- The per-image formatter of the docker-images route. -/
def formatImage (im : RawImage) : ImageRecord :=
  { id := im.name
    name := lastTwoSegments im.name
    uri := im.uri
    tags := im.tags.getD []
    sizeBytes := im.imageSizeBytes.getD 0
    sizeFormatted := formatSize (some (im.imageSizeBytes.getD 0))
    uploadedAt := im.uploadTime
    buildTime := im.buildTime
    mediaType := jsOr im.mediaType "" }

/-- The CLI table cell for an image size: `formatSize(Number(image.imageSizeBytes))`,
where `Number(undefined)` is `NaN` (modelled by `none`). -/
def cliSizeCell (imageSizeBytes : Option Nat) : String :=
  formatSize imageSizeBytes

/-! ## The `/api/repositories` multi-location scan and the listing routes

Each upstream SDK call is modelled by its outcome, supplied as an input:
`Except.ok` with the returned entity list, or `Except.error` with the thrown
message. The route bodies are translated faithfully; the `Except` result of a
route models whether the handler answers 200 (`ok`) or 500 (`error`). -/

/-- The fixed candidate-location list of `/api/repositories`. -/
def candidateLocations : List String :=
  ["asia-south1", "us-central1", "us-east1", "europe-west1", "asia-southeast1"]

/-- The accumulation loop of `/api/repositories`: the outcome of each location is
consumed in order; a throw is caught, logged, and skipped
(`allRepositories = allRepositories.concat(repositories)` on success). -/
def aggregateRepos (outcomes : List (Except String (List RawRepo))) : List RawRepo :=
  outcomes.foldl
    (fun acc o =>
      match o with
      | .ok repos => acc ++ repos
      | .error _ => acc)
    []

/-- The success payload of `/api/repositories`. -/
structure RepositoriesResponse where
  repositories : List RepoRecord
  count : Nat
deriving Repr, DecidableEq

/-- The `/api/repositories` route body, given the per-location outcomes.
No per-location failure escapes the loop, so the handler always answers 200. -/
def listRepositoriesRoute (outcomes : List (Except String (List RawRepo))) :
    Except String RepositoriesResponse :=
  let formattedRepos := (aggregateRepos outcomes).map formatRepo
  .ok { repositories := formattedRepos, count := formattedRepos.length }

/-- The success payload of the packages route. -/
structure PackagesResponse where
  packages : List PackageRecord
  count : Nat
deriving Repr, DecidableEq

/-- The packages route body: a single upstream call whose failure propagates. -/
def listPackagesRoute (upstream : Except String (List RawPackage)) :
    Except String PackagesResponse :=
  upstream.map fun pkgs =>
    let formattedPackages := pkgs.map formatPackage
    { packages := formattedPackages, count := formattedPackages.length }

/-- The success payload of the versions route. -/
structure VersionsResponse where
  versions : List VersionRecord
  count : Nat
deriving Repr, DecidableEq

/-- The versions route body: a single upstream call whose failure propagates. -/
def listVersionsRoute (upstream : Except String (List RawVersion)) :
    Except String VersionsResponse :=
  upstream.map fun vs =>
    let formattedVersions := vs.map formatVersion
    { versions := formattedVersions, count := formattedVersions.length }

/-- The success payload of the docker-images route. -/
structure ImagesResponse where
  images : List ImageRecord
  count : Nat
deriving Repr, DecidableEq

/-- The docker-images route body: a single upstream call whose failure propagates. -/
def listImagesRoute (upstream : Except String (List RawImage)) :
    Except String ImagesResponse :=
  upstream.map fun ims =>
    let formattedImages := ims.map formatImage
    { images := formattedImages, count := formattedImages.length }

/-! ## Credential validation (`/api/validate-credentials`) -/

/-- A credential bundle; each field is `none` when absent (JavaScript
`undefined`) and may be the empty string, which is falsy. -/
structure CredBundle where
  project_id : Option String
  private_key : Option String
  client_email : Option String
deriving Repr, DecidableEq

/-- The structural check of the validator:
`!creds.project_id || !creds.private_key || !creds.client_email` negated. -/
def wellFormedCreds (c : CredBundle) : Bool :=
  jsTruthy c.project_id && jsTruthy c.private_key && jsTruthy c.client_email

/-- Outcome of one `listRepositories` probe call: success with the repository
list, or a throw carrying the upstream gRPC code (`none` when the thrown error
has no numeric code). -/
inductive ProbeOutcome where
  | ok (repos : List RawRepo)
  | err (code : Option Int)
deriving Repr, DecidableEq

/-- Whether a probe outcome is a throw. -/
def ProbeOutcome.isErr : ProbeOutcome → Bool
  | .ok _ => false
  | .err _ => true

/-- The response of `/api/validate-credentials`. -/
structure ValidateResult where
  valid : Bool
  error : Option String
  projectId : Option String
  serviceAccount : Option String
deriving Repr, DecidableEq

/-- The structural-failure message of the validator. -/
def credFormatErrorMsg : String :=
  "Invalid credentials format. Required fields: project_id, private_key, client_email"

/-- The authentication-failure message of the validator. -/
def authFailErrorMsg : String := "Invalid credentials - authentication failed"

/-- The success response of the validator. -/
def validOkResult (c : CredBundle) : ValidateResult :=
  { valid := true, error := none,
    projectId := c.project_id, serviceAccount := c.client_email }

/-- The `/api/validate-credentials` body, given the outcomes of the probe
against `asia-south1` and (only consulted if the first throws) `us-central1`:
structural check first; then codes 7 and 3 on the second probe are logged and
fall through to valid, code 16 answers invalid, and every other outcome —
including both probes succeeding with empty lists — answers valid. -/
def validateCredentials (c : CredBundle) (probe1 probe2 : ProbeOutcome) :
    ValidateResult :=
  if !wellFormedCreds c then
    { valid := false, error := some credFormatErrorMsg,
      projectId := none, serviceAccount := none }
  else
    match probe1 with
    | .ok _ => validOkResult c
    | .err _ =>
      match probe2 with
      | .ok _ => validOkResult c
      | .err code =>
        if code = some 7 ∨ code = some 3 then validOkResult c
        else if code = some 16 then
          { valid := false, error := some authFailErrorMsg,
            projectId := none, serviceAccount := none }
        else validOkResult c

/-! ## Transfer-command synthesis (`/api/transfer-commands`) -/

/-- The request body of `/api/transfer-commands`; string fields are `none`
when absent, and the credential bundle is `none` when absent (an object-valued
bundle is always truthy, whatever its fields). -/
structure TransferRequest where
  sourceImage : Option String
  sourceTag : Option String
  targetRepo : Option String
  targetLocation : Option String
  targetName : Option String
  credentials : Option CredBundle
deriving Repr, DecidableEq

/-- One step of a transfer plan. -/
structure CommandStep where
  step : Nat
  title : String
  command : String
  descr : String
deriving Repr, DecidableEq

/-- The summary block of a transfer plan. -/
structure TransferSummary where
  source : String
  target : String
deriving Repr, DecidableEq

/-- A transfer plan: the ordered steps plus the summary. -/
structure TransferPlan where
  steps : List CommandStep
  summary : TransferSummary
deriving Repr, DecidableEq

/-- Model of the template `` `${targetLocation}-docker.pkg.dev` ``. -/
def registryHostOf (targetLocation : String) : String :=
  targetLocation ++ "-docker.pkg.dev"

/-- Model of the template `` `${registryHost}/${projectId}/${targetRepo}/${imageName}:${tag}` ``;
an absent `project_id` interpolates as the literal text "undefined". -/
def targetPathOf (creds : CredBundle) (targetRepo targetLocation imageName tag : String) :
    String :=
  registryHostOf targetLocation ++ "/" ++ jsUndef creds.project_id ++ "/" ++
    targetRepo ++ "/" ++ imageName ++ ":" ++ tag

/-- The validated inputs of the synthesizer (fields proven present). -/
structure TransferInputs where
  sourceImage : String
  sourceTag : Option String
  targetRepo : String
  targetLocation : String
  targetName : Option String
  creds : CredBundle
deriving Repr, DecidableEq

/-- The plan construction of `/api/transfer-commands`, line by line:
`tag = sourceTag || "latest"`; `imageName = targetName || sourceImage.split(sep).pop()`;
the `pullPath` conditional assigns `sourceImage` in both branches, as in the
source; then the four fixed steps and the summary. -/
def mkTransferPlan (i : TransferInputs) : TransferPlan :=
  let tag := jsOr i.sourceTag "latest"
  let imageName := jsOr i.targetName (shortName i.sourceImage)
  let registryHost := registryHostOf i.targetLocation
  let targetPath := targetPathOf i.creds i.targetRepo i.targetLocation imageName tag
  let pullPath :=
    if !(jsIncludesChar i.sourceImage '/') && !(jsIncludesChar i.sourceImage '.') then
      i.sourceImage
    else i.sourceImage
  { steps :=
      [ { step := 1
          title := "Authenticate with GCP Artifact Registry"
          command := "gcloud auth configure-docker " ++ registryHost ++ " --quiet"
          descr := "Configure Docker to authenticate with your GCP registry" },
        { step := 2
          title := "Pull the source image"
          command := "docker pull " ++ pullPath ++ ":" ++ tag
          descr := "Pull " ++ i.sourceImage ++ ":" ++ tag ++ " from the source registry" },
        { step := 3
          title := "Tag for GCP Artifact Registry"
          command := "docker tag " ++ pullPath ++ ":" ++ tag ++ " " ++ targetPath
          descr := "Tag the image with your GCP registry path" },
        { step := 4
          title := "Push to GCP Artifact Registry"
          command := "docker push " ++ targetPath
          descr := "Push the image to your GCP Artifact Registry" } ]
    summary := { source := pullPath ++ ":" ++ tag, target := targetPath } }

/-- The `/api/transfer-commands` body: the guard
`!sourceImage || !targetRepo || !targetLocation || !credentials` answers 400
(`none` here); otherwise the plan is synthesized with no further validation of
the contents of the credential bundle. -/
def generateTransferPlan (r : TransferRequest) : Option TransferPlan :=
  match r.sourceImage, r.targetRepo, r.targetLocation, r.credentials with
  | some si, some tr, some tl, some creds =>
    if si.isEmpty || tr.isEmpty || tl.isEmpty then none
    else some (mkTransferPlan ⟨si, r.sourceTag, tr, tl, r.targetName, creds⟩)
  | _, _, _, _ => none

/-- Whether a per-location listing outcome is a throw. -/
def isLocErr (o : Except String (List RawRepo)) : Bool :=
  match o with
  | .ok _ => false
  | .error _ => true

/-! ## Sample records used by concrete instantiations -/

/-- A concrete raw repository record. -/
def sampleRawRepo : RawRepo :=
  { name := "projects/proj1/locations/us-central1/repositories/repo-a"
    format := some "DOCKER"
    descr := none
    createTime := none
    updateTime := none
    sizeBytes := some 1536 }

/-- A concrete raw repository record with no upstream byte count. -/
def repoNoSize : RawRepo :=
  { name := "projects/proj1/locations/us-central1/repositories/repo-b"
    format := none
    descr := none
    createTime := none
    updateTime := none
    sizeBytes := none }

/-- A concrete raw package record. -/
def sampleRawPackage : RawPackage :=
  { name := "projects/proj1/locations/us-central1/repositories/repo-a/packages/pkg-a"
    displayName := none
    createTime := none
    updateTime := none }

/-- A concrete well-formed credential bundle. -/
def sampleCreds : CredBundle :=
  { project_id := some "proj1", private_key := some "key", client_email := some "sa" }

/-! ## Supporting lemmas -/

/-- A `consSeg` result is never the empty list. -/
theorem consSeg_ne_nil (c : Char) (r : List (List Char)) : consSeg c r ≠ [] := by
  cases r with
  | nil => simp [consSeg]
  | cons seg segs => by_cases hc : c = '/' <;> simp [consSeg, hc]

/-- A split result is never the empty list. -/
theorem splitSlash_ne_nil (l : List Char) : splitSlash l ≠ [] := by
  cases l with
  | nil => simp [splitSlash]
  | cons c rest => simpa [splitSlash] using consSeg_ne_nil c (splitSlash rest)

/-- Splitting a slash-free string yields one segment: the string itself. -/
theorem splitSlash_no_slash {l : List Char} (h : '/' ∉ l) : splitSlash l = [l] := by
  induction l with
  | nil => rfl
  | cons c rest ih =>
    have hc : ¬ c = '/' := fun e => h (e ▸ List.mem_cons_self c rest)
    have hr : '/' ∉ rest := fun m => h (List.mem_cons_of_mem c m)
    simp [splitSlash, ih hr, consSeg, hc]

/-- Prepending a separator to a nonempty split keeps at least two segments. -/
theorem two_le_length_consSeg_slash {r : List (List Char)} (hr : r ≠ []) :
    2 ≤ (consSeg '/' r).length := by
  cases r with
  | nil => exact absurd rfl hr
  | cons seg segs => simp [consSeg]

/-- The step `consSeg` never shrinks a split below two segments. -/
theorem two_le_consSeg_length (c : Char) {r : List (List Char)}
    (h : 2 ≤ r.length) : 2 ≤ (consSeg c r).length := by
  cases r with
  | nil => simp at h
  | cons seg segs =>
    have h' : 1 ≤ segs.length := by simp at h; omega
    by_cases hc : c = '/'
    · simp [consSeg, hc]
    · simp [consSeg, hc]
      omega

/-- A string containing a slash splits into at least two segments. -/
theorem two_le_splitSlash_length {l : List Char} (h : '/' ∈ l) :
    2 ≤ (splitSlash l).length := by
  induction l with
  | nil => cases h
  | cons c rest ih =>
    show 2 ≤ (consSeg c (splitSlash rest)).length
    rcases List.mem_cons.mp h with h1 | h2
    · rw [← h1]
      exact two_le_length_consSeg_slash (splitSlash_ne_nil rest)
    · exact two_le_consSeg_length c (ih h2)

/-- Prepending a separator never changes the final segment of a nonempty split. -/
theorem getLast?_consSeg_slash {r : List (List Char)} (hr : r ≠ []) :
    (consSeg '/' r).getLast? = r.getLast? := by
  cases r with
  | nil => exact absurd rfl hr
  | cons seg segs => simp [consSeg]

/-- The step `consSeg` never changes the final segment of a split with two or more
segments. -/
theorem getLast?_consSeg (c : Char) {r : List (List Char)} (h2 : 2 ≤ r.length) :
    (consSeg c r).getLast? = r.getLast? := by
  cases r with
  | nil => simp at h2
  | cons seg segs =>
    cases segs with
    | nil => simp at h2
    | cons q qs =>
      by_cases hc : c = '/'
      · show (if c = '/' then [] :: seg :: q :: qs else (c :: seg) :: q :: qs).getLast? = _
        rw [if_pos hc]
        exact List.getLast?_cons_cons
      · show (if c = '/' then [] :: seg :: q :: qs else (c :: seg) :: q :: qs).getLast? = _
        rw [if_neg hc, List.getLast?_cons_cons, List.getLast?_cons_cons]

/-- The final split segment of `p ++ "/" ++ s` is the final split segment of
`s`: everything before the last separator cannot change it. -/
theorem getLast?_splitSlash_append (s : List Char) (p : List Char) :
    (splitSlash (p ++ '/' :: s)).getLast? = (splitSlash s).getLast? := by
  induction p with
  | nil =>
    show (consSeg '/' (splitSlash s)).getLast? = _
    exact getLast?_consSeg_slash (splitSlash_ne_nil s)
  | cons c p' ih =>
    show (consSeg c (splitSlash (p' ++ '/' :: s))).getLast? = _
    rw [getLast?_consSeg c (two_le_splitSlash_length (by simp)), ih]

/-- The value of `shortName` at `prefixPart ++ "/" ++ seg` is `seg` whenever `seg` carries
no separator, whatever the text before the last separator. -/
theorem shortName_append_seg (p seg : String) (h : '/' ∉ seg.data) :
    shortName (p ++ "/" ++ seg) = seg := by
  have hdata : (p ++ "/" ++ seg).data = p.data ++ '/' :: seg.data := by
    rw [String.data_append, String.data_append]
    simp [List.append_assoc]
  unfold shortName splitOnSlash
  rw [hdata]
  rw [List.getLastD_eq_getLast?, List.getLast?_map,
    getLast?_splitSlash_append seg.data p.data, splitSlash_no_slash h]
  rfl

/-- With enough fuel, `ilogAux` brackets its argument between consecutive
powers of the base: it is the exact integer logarithm. -/
theorem ilogAux_bounds {base : Nat} (hb : 2 ≤ base) :
    ∀ fuel n, 1 ≤ n → n ≤ fuel →
      base ^ (ilogAux base fuel n) ≤ n ∧ n < base ^ (ilogAux base fuel n + 1) := by
  intro fuel
  induction fuel with
  | zero => intro n h1 h2; omega
  | succ f ih =>
    intro n h1 h2
    unfold ilogAux
    by_cases h : n < base
    · simp only [if_pos h]
      constructor
      · simpa using h1
      · simpa using h
    · simp only [if_neg h]
      have hbpos : 0 < base := by omega
      have hnb : base ≤ n := le_of_not_lt h
      have hm1 : 1 ≤ n / base := (Nat.one_le_div_iff hbpos).mpr hnb
      have hmf : n / base ≤ f := by
        have := Nat.div_lt_self (by omega : 0 < n) (by omega : 1 < base)
        omega
      obtain ⟨hlo, hhi⟩ := ih (n / base) hm1 hmf
      constructor
      · calc base ^ (ilogAux base f (n / base) + 1)
            = base ^ (ilogAux base f (n / base)) * base := by ring
          _ ≤ (n / base) * base := Nat.mul_le_mul_right base hlo
          _ ≤ n := Nat.div_mul_le_self n base
      · have hmod := Nat.div_add_mod n base
        have hmlt := Nat.mod_lt n hbpos
        have hstep : n < base * (n / base + 1) := by
          have hexp : base * (n / base + 1) = base * (n / base) + base := by ring
          omega
        have hsucc : n / base + 1 ≤ base ^ (ilogAux base f (n / base) + 1) := hhi
        calc n < base * (n / base + 1) := hstep
          _ ≤ base * base ^ (ilogAux base f (n / base) + 1) :=
            Nat.mul_le_mul_left base hsucc
          _ = base ^ (ilogAux base f (n / base) + 1 + 1) := by ring

/-- The logarithm `ilog1024` brackets a positive byte count between consecutive powers
of 1024. -/
theorem ilog1024_bounds {n : Nat} (h : 1 ≤ n) :
    1024 ^ (ilog1024 n) ≤ n ∧ n < 1024 ^ (ilog1024 n + 1) :=
  ilogAux_bounds (by norm_num) n n h le_rfl

/-- Successes and throws partition the per-location outcomes. -/
theorem countP_isOk_add_isLocErr (l : List (Except String (List RawRepo))) :
    l.countP (fun o => o.isOk) + l.countP isLocErr = l.length := by
  induction l with
  | nil => rfl
  | cons o os ih =>
    cases o with
    | ok r =>
      simp [List.countP_cons, isLocErr, Except.isOk, Except.toBool] at ih ⊢
      omega
    | error e =>
      simp [List.countP_cons, isLocErr, Except.isOk, Except.toBool] at ih ⊢
      omega

/-- The accumulation loop keeps exactly the successful location results,
concatenated in location order. -/
theorem aggregateRepos_eq (outcomes : List (Except String (List RawRepo))) :
    aggregateRepos outcomes = (outcomes.filterMap Except.toOption).flatten := by
  have hgen : ∀ (os : List (Except String (List RawRepo))) (acc : List RawRepo),
      os.foldl
        (fun acc o =>
          match o with
          | .ok repos => acc ++ repos
          | .error _ => acc)
        acc = acc ++ (os.filterMap Except.toOption).flatten := by
    intro os
    induction os with
    | nil => intro acc; simp
    | cons o os ih =>
      intro acc
      cases o with
      | ok r => simp [List.filterMap_cons, Except.toOption, ih, List.append_assoc]
      | error e => simp [List.filterMap_cons, Except.toOption, ih]
  simpa using hgen outcomes []

/-! ## Claims -/

/-- C1: whenever `sourceImage`, `targetRepo`, `targetLocation` and a credential
bundle are all present (truthy), `generateTransferPlan` yields a plan of
exactly four steps numbered 1–4 in the fixed order authenticate → pull → tag →
push, with the fixed titles and the literal command strings; and the generator
is a pure function, so identical inputs yield identical command text. -/
theorem transferPlan_four_fixed_steps (si tr tl : String) (st tn : Option String)
    (creds : CredBundle)
    (hsi : si.isEmpty = false) (htr : tr.isEmpty = false) (htl : tl.isEmpty = false) :
    ∃ plan,
      generateTransferPlan ⟨some si, st, some tr, some tl, tn, some creds⟩ =
        some plan ∧
      plan.steps.length = 4 ∧
      plan.steps.map (fun s => s.step) = [1, 2, 3, 4] ∧
      plan.steps.map (fun s => s.title) =
        ["Authenticate with GCP Artifact Registry", "Pull the source image",
         "Tag for GCP Artifact Registry", "Push to GCP Artifact Registry"] ∧
      plan.steps.map (fun s => s.command) =
        ["gcloud auth configure-docker " ++ registryHostOf tl ++ " --quiet",
         "docker pull " ++ si ++ ":" ++ jsOr st "latest",
         "docker tag " ++ si ++ ":" ++ jsOr st "latest" ++ " " ++
           targetPathOf creds tr tl (jsOr tn (shortName si)) (jsOr st "latest"),
         "docker push " ++
           targetPathOf creds tr tl (jsOr tn (shortName si)) (jsOr st "latest")] ∧
      (∀ r₁ r₂ : TransferRequest, r₁ = r₂ →
        generateTransferPlan r₁ = generateTransferPlan r₂) := by
  refine ⟨mkTransferPlan ⟨si, st, tr, tl, tn, creds⟩, ?_, rfl, rfl, rfl, ?_, ?_⟩
  · simp [generateTransferPlan, hsi, htr, htl]
  · simp [mkTransferPlan]
  · intro r₁ r₂ h
    rw [h]

/-- Witness for C1 at a concrete request. -/
theorem transferPlan_four_fixed_steps_witness :
    ∃ plan,
      generateTransferPlan
        ⟨some "nginx", none, some "my-repo", some "us-central1", none,
          some sampleCreds⟩ = some plan ∧
      plan.steps.length = 4 ∧
      plan.steps.map (fun s => s.step) = [1, 2, 3, 4] := by
  obtain ⟨plan, hp, hlen, hsteps, -⟩ :=
    transferPlan_four_fixed_steps "nginx" "my-repo" "us-central1" none none
      sampleCreds (by decide) (by decide) (by decide)
  exact ⟨plan, hp, hlen, hsteps⟩

/-- C2: for the request `sourceImage="nginx"`, no tag, `targetRepo="my-repo"`,
`targetLocation="us-central1"`, no target name, project `proj1`: the tag
defaults to `latest`, the image name defaults to the final path segment of the
source image, the target path is exactly
`us-central1-docker.pkg.dev/proj1/my-repo/nginx:latest`, and the pull command
is exactly `docker pull nginx:latest`. -/
theorem transferPlan_nginx_defaults :
    shortName "nginx" = "nginx" ∧
    jsOr none "latest" = "latest" ∧
    (generateTransferPlan
        ⟨some "nginx", none, some "my-repo", some "us-central1", none,
          some sampleCreds⟩).map (fun p => p.summary.target) =
      some "us-central1-docker.pkg.dev/proj1/my-repo/nginx:latest" ∧
    (generateTransferPlan
        ⟨some "nginx", none, some "my-repo", some "us-central1", none,
          some sampleCreds⟩).map
        (fun p => (p.steps.map (fun s => s.command))[1]?) =
      some (some "docker pull nginx:latest") := by
  decide

/-- C3: the credential validator answers invalid with the
required-fields message when a required field is missing (the message names
every required field, in particular the missing ones); answers invalid with
the authentication-failure message when both probes throw with the
unauthenticated code 16; answers valid when the first probe throws and the
second throws with permission-denied (7) or invalid-argument (3); and answers
valid on every other probe outcome, including empty repository lists. -/
theorem validateCredentials_spec :
    (∀ (c : CredBundle) (p1 p2 : ProbeOutcome), wellFormedCreds c = false →
      (validateCredentials c p1 p2).valid = false ∧
      (validateCredentials c p1 p2).error = some credFormatErrorMsg) ∧
    (∃ pre1 post1, credFormatErrorMsg = pre1 ++ ("project_id" ++ post1)) ∧
    (∃ pre2 post2, credFormatErrorMsg = pre2 ++ ("private_key" ++ post2)) ∧
    (∃ pre3 post3, credFormatErrorMsg = pre3 ++ ("client_email" ++ post3)) ∧
    (∀ c : CredBundle, wellFormedCreds c = true →
      (validateCredentials c (.err (some 16)) (.err (some 16))).valid = false ∧
      (validateCredentials c (.err (some 16)) (.err (some 16))).error =
        some authFailErrorMsg) ∧
    (∀ (c : CredBundle) (c1 c2 : Option Int), wellFormedCreds c = true →
      (c2 = some 7 ∨ c2 = some 3) →
      (validateCredentials c (.err c1) (.err c2)).valid = true) ∧
    (∀ (c : CredBundle) (p1 p2 : ProbeOutcome), wellFormedCreds c = true →
      ¬(p1.isErr = true ∧ p2 = ProbeOutcome.err (some 16)) →
      (validateCredentials c p1 p2).valid = true) := by
  refine ⟨?_, ?_, ?_, ?_, ?_, ?_, ?_⟩
  · intro c p1 p2 h
    constructor
    · simp [validateCredentials, h]
    · simp [validateCredentials, h]
  · exact ⟨"Invalid credentials format. Required fields: ",
      ", private_key, client_email", by decide⟩
  · exact ⟨"Invalid credentials format. Required fields: project_id, ",
      ", client_email", by decide⟩
  · exact ⟨"Invalid credentials format. Required fields: project_id, private_key, ",
      "", by decide⟩
  · intro c h
    constructor
    · simp [validateCredentials, h]
    · simp [validateCredentials, h]
  · intro c c1 c2 h hc
    rcases hc with rfl | rfl
    · simp [validateCredentials, h, validOkResult]
    · simp [validateCredentials, h, validOkResult]
  · intro c p1 p2 h hn
    cases p1 with
    | ok r => simp [validateCredentials, h, validOkResult]
    | err c1 =>
      cases p2 with
      | ok r => simp [validateCredentials, h, validOkResult]
      | err c2 =>
        have h16 : ¬ c2 = some 16 := by
          intro he
          exact hn ⟨rfl, by rw [he]⟩
        by_cases h7 : c2 = some 7 ∨ c2 = some 3
        · simp [validateCredentials, h, h7, validOkResult]
        · simp [validateCredentials, h, h7, h16, validOkResult]

/-- Witness for C3 at concrete bundles and probe outcomes. -/
theorem validateCredentials_spec_witness :
    (validateCredentials ⟨some "proj1", none, some "sa"⟩ (.ok []) (.ok [])).valid =
      false ∧
    (validateCredentials sampleCreds (.err (some 16)) (.err (some 16))).valid =
      false ∧
    (validateCredentials sampleCreds (.err (some 16)) (.err (some 7))).valid =
      true ∧
    (validateCredentials sampleCreds (.ok []) (.ok [])).valid = true := by
  refine ⟨?_, ?_, ?_, ?_⟩
  · exact (validateCredentials_spec.1 ⟨some "proj1", none, some "sa"⟩
      (.ok []) (.ok []) (by decide)).1
  · exact (validateCredentials_spec.2.2.2.2.1 sampleCreds (by decide)).1
  · exact validateCredentials_spec.2.2.2.2.2.1 sampleCreds (some 16) (some 7)
      (by decide) (Or.inl rfl)
  · exact validateCredentials_spec.2.2.2.2.2.2 sampleCreds (.ok []) (.ok [])
      (by decide) (by simp [ProbeOutcome.isErr])

/-- C4: the `/api/repositories` scan over the five fixed locations swallows
every per-location failure: with 3 of the 5 outcomes throwing and 2 returning
lists, the route still answers success, and its payload is exactly the
concatenation, in the fixed location order, of the successful result lists. -/
theorem listRepositories_absorbs_location_failures
    (outcomes : List (Except String (List RawRepo)))
    (hlen : outcomes.length = 5)
    (herr : outcomes.countP isLocErr = 3) :
    ∃ resp, listRepositoriesRoute outcomes = .ok resp ∧
      resp.repositories =
        ((outcomes.filterMap Except.toOption).flatten).map formatRepo ∧
      outcomes.countP (fun o => o.isOk) = 2 := by
  refine ⟨_, rfl, ?_, ?_⟩
  · rw [aggregateRepos_eq]
  · have hsum := countP_isOk_add_isLocErr outcomes
    omega

/-- Witness for C4: locations 1, 3, 5 throw, locations 2 and 4 succeed. -/
theorem listRepositories_absorbs_location_failures_witness :
    ∃ resp,
      listRepositoriesRoute
        [.error "no repos", .ok [sampleRawRepo], .error "denied", .ok [],
          .error "denied"] = .ok resp ∧
      resp.repositories =
        (([sampleRawRepo] ++ ([] : List RawRepo)).map formatRepo) := by
  obtain ⟨resp, hroute, hrepos, -⟩ :=
    listRepositories_absorbs_location_failures
      [.error "no repos", .ok [sampleRawRepo], .error "denied", .ok [],
        .error "denied"] (by decide) (by decide)
  exact ⟨resp, hroute, by simpa using hrepos⟩

/-- C5: evaluation of the code at the disputed input. `formatSize` applied to
byte count 0 returns "N/A", not "0 Bytes": the `!bytes` guard fires on 0
before the unreachable `bytes === 0` branch. Consequently the web API maps an
absent upstream byte count to `sizeBytes = 0` but renders
`sizeFormatted = "N/A"`; the CLI renders an absent byte count
(`Number(undefined)`, i.e. `NaN`) as "N/A". -/
theorem formatSize_zero_renders_NA :
    formatSize (some 0) = "N/A" ∧
    formatSize (some 0) ≠ "0 Bytes" ∧
    (formatRepo repoNoSize).sizeBytes = 0 ∧
    (formatRepo repoNoSize).sizeFormatted = "N/A" ∧
    cliSizeCell none = "N/A" := by
  decide

/-- C6 counterexample: at byte count `2^52` the computed unit index is 5, past
the end of the five-entry unit table, so the rendered unit is the literal text
"undefined" — not one of {Bytes, KB, MB, GB, TB} as the claim requires of
every `b ≥ 1`. -/
theorem formatSize_unit_overflow_counterexample :
    formatSize (some 4503599627370496) = "4.00 undefined" ∧
    "undefined" ∉ sizeUnits ∧
    (sizeUnits.all
      (fun u => formatSize (some 4503599627370496) != "4.00 " ++ u)) = true := by
  decide

/-- C6 (amended): for every byte count `1 ≤ b < 1024^5`, `formatSize` selects
the unit of index `⌊log b / log 1024⌋` (characterized exactly by
`1024^i ≤ b < 1024^(i+1)`), that index lies within the five-entry unit table,
the rendered text is the two-decimal magnitude followed by that unit, and
`formatSize 1536 = "1.50 KB"`. -/
theorem formatSize_unit_selection (b : Nat) (h1 : 1 ≤ b) (h2 : b < 1024 ^ 5) :
    ilog1024 b < 5 ∧
    1024 ^ (ilog1024 b) ≤ b ∧ b < 1024 ^ (ilog1024 b + 1) ∧
    formatSize (some b) =
      toFixed2 b (1024 ^ (ilog1024 b)) ++ " " ++
        sizeUnits.getD (ilog1024 b) "undefined" ∧
    sizeUnits.getD (ilog1024 b) "undefined" ∈ sizeUnits ∧
    formatSize (some 1536) = "1.50 KB" := by
  obtain ⟨hlo, hhi⟩ := ilog1024_bounds h1
  have hb0 : ¬ b = 0 := by omega
  have hi5 : ilog1024 b < 5 := by
    by_contra hge
    push_neg at hge
    have hmono : 1024 ^ 5 ≤ 1024 ^ (ilog1024 b) :=
      Nat.pow_le_pow_right (by norm_num) hge
    omega
  refine ⟨hi5, hlo, hhi, ?_, ?_, by decide⟩
  · simp [formatSize, hb0]
  · have hcase : ilog1024 b = 0 ∨ ilog1024 b = 1 ∨ ilog1024 b = 2 ∨
        ilog1024 b = 3 ∨ ilog1024 b = 4 := by omega
    rcases hcase with he | he | he | he | he <;> rw [he] <;> decide

/-- Witness for C6 at `b = 1536`. -/
theorem formatSize_unit_selection_witness :
    1 ≤ 1536 ∧ 1536 < 1024 ^ 5 ∧ formatSize (some 1536) = "1.50 KB" :=
  ⟨by norm_num, by norm_num,
    (formatSize_unit_selection 1536 (by norm_num) (by norm_num)).2.2.2.2.2⟩

/-- C7: the short name derived by the listing formatters is the final path
segment of the identifier, whatever the text before the last separator (so
however many prefix segments there are); and the repository, package and
version formatters all derive their `name` field by exactly this rule. -/
theorem shortName_is_final_segment (p seg : String) (h : '/' ∉ seg.data) :
    shortName (p ++ "/" ++ seg) = seg ∧
    (∀ r : RawRepo, (formatRepo r).name = shortName r.name) ∧
    (∀ k : RawPackage, (formatPackage k).name = shortName k.name) ∧
    (∀ v : RawVersion, (formatVersion v).name = shortName v.name) :=
  ⟨shortName_append_seg p seg h, fun _ => rfl, fun _ => rfl, fun _ => rfl⟩

/-- Witness for C7 at a four-segment prefix. -/
theorem shortName_is_final_segment_witness :
    shortName ("projects/proj1/locations/us-central1/repositories" ++ "/" ++
      "repo-a") = "repo-a" ∧
    (formatPackage sampleRawPackage).name = "pkg-a" :=
  ⟨(shortName_is_final_segment "projects/proj1/locations/us-central1/repositories"
      "repo-a" (by decide)).1, by decide⟩

/-- C8: the repository formatter copies the raw identifier into the display
record unchanged, so re-deriving the short name (final segment) and the
location (segment of index 3) from the identifier of the formatted record
reproduces both the formatted fields and the segments of the original
identifier exactly. -/
theorem formatRepo_roundtrip (r : RawRepo) :
    (formatRepo r).id = r.name ∧
    (formatRepo r).name = shortName ((formatRepo r).id) ∧
    (formatRepo r).location = locationSeg ((formatRepo r).id) ∧
    shortName ((formatRepo r).id) = shortName r.name ∧
    locationSeg ((formatRepo r).id) = locationSeg r.name :=
  ⟨rfl, rfl, rfl, rfl, rfl⟩

/-- C9: with the three required string fields present and a credential bundle
supplied as an object lacking `project_id`, the transfer-commands operation
does not reject: it yields a four-step plan whose target path carries the
literal text "undefined" in the project segment — the guard checks only the
presence of its four required fields, never the structure of the bundle. -/
theorem transferPlan_skips_credential_checks (si tr tl : String)
    (st tn pk ce : Option String)
    (hsi : si.isEmpty = false) (htr : tr.isEmpty = false) (htl : tl.isEmpty = false) :
    ∃ plan,
      generateTransferPlan
        ⟨some si, st, some tr, some tl, tn, some ⟨none, pk, ce⟩⟩ = some plan ∧
      plan.steps.length = 4 ∧
      plan.summary.target =
        registryHostOf tl ++ "/" ++ "undefined" ++ "/" ++ tr ++ "/" ++
          jsOr tn (shortName si) ++ ":" ++ jsOr st "latest" := by
  refine ⟨mkTransferPlan ⟨si, st, tr, tl, tn, ⟨none, pk, ce⟩⟩, ?_, rfl, ?_⟩
  · simp [generateTransferPlan, hsi, htr, htl]
  · simp [mkTransferPlan, targetPathOf, jsUndef]

/-- Witness for C9 at a concrete request with an empty credential object. -/
theorem transferPlan_skips_credential_checks_witness :
    ∃ plan,
      generateTransferPlan
        ⟨some "nginx", none, some "my-repo", some "us-central1", none,
          some ⟨none, none, none⟩⟩ = some plan ∧
      plan.steps.length = 4 ∧
      plan.summary.target =
        registryHostOf "us-central1" ++ "/" ++ "undefined" ++ "/" ++ "my-repo" ++
          "/" ++ jsOr none (shortName "nginx") ++ ":" ++ jsOr none "latest" :=
  transferPlan_skips_credential_checks "nginx" "my-repo" "us-central1"
    none none none none (by decide) (by decide) (by decide)

/-- C10: each of the four listing routes answers, on success, a payload whose
`count` field equals the length of the array it accompanies. -/
theorem listing_count_matches_length :
    (∀ outcomes resp, listRepositoriesRoute outcomes = .ok resp →
      resp.count = resp.repositories.length) ∧
    (∀ upstream resp, listPackagesRoute upstream = .ok resp →
      resp.count = resp.packages.length) ∧
    (∀ upstream resp, listVersionsRoute upstream = .ok resp →
      resp.count = resp.versions.length) ∧
    (∀ upstream resp, listImagesRoute upstream = .ok resp →
      resp.count = resp.images.length) := by
  refine ⟨?_, ?_, ?_, ?_⟩
  · intro outcomes resp h
    simp only [listRepositoriesRoute, Except.ok.injEq] at h
    rw [← h]
  · intro upstream resp h
    cases upstream with
    | error e => simp [listPackagesRoute, Except.map] at h
    | ok pkgs =>
      simp only [listPackagesRoute, Except.map, Except.ok.injEq] at h
      rw [← h]
  · intro upstream resp h
    cases upstream with
    | error e => simp [listVersionsRoute, Except.map] at h
    | ok vs =>
      simp only [listVersionsRoute, Except.map, Except.ok.injEq] at h
      rw [← h]
  · intro upstream resp h
    cases upstream with
    | error e => simp [listImagesRoute, Except.map] at h
    | ok ims =>
      simp only [listImagesRoute, Except.map, Except.ok.injEq] at h
      rw [← h]

/-- Witness for C10 on concrete successful responses of all four routes. -/
theorem listing_count_matches_length_witness :
    (({ repositories := [formatRepo sampleRawRepo], count := 1 } :
        RepositoriesResponse)).count = [formatRepo sampleRawRepo].length ∧
    (({ packages := [formatPackage sampleRawPackage], count := 1 } :
        PackagesResponse)).count = [formatPackage sampleRawPackage].length ∧
    (({ versions := [], count := 0 } : VersionsResponse)).count =
      ([] : List VersionRecord).length ∧
    (({ images := [], count := 0 } : ImagesResponse)).count =
      ([] : List ImageRecord).length :=
  ⟨listing_count_matches_length.1 [.ok [sampleRawRepo]] _ rfl,
    listing_count_matches_length.2.1 (.ok [sampleRawPackage]) _ rfl,
    listing_count_matches_length.2.2.1 (.ok []) _ rfl,
    listing_count_matches_length.2.2.2 (.ok []) _ rfl⟩
